import Mathlib

/-!
Verification development for the SLURM job monitor core: a shallow
embedding of the log tailer's offset-tracked reader, the scheduler
status query, the status-poller loop body, and the dashboard UI state
machine, with theorems about the spec-level properties of each.
-/

namespace SlurmMonitor

/-! ## String helpers

Structural-recursion counterparts of the Python string operations used
by the source (`split`, `strip`, `upper`, substring containment), so
that concrete instances evaluate by kernel reduction. -/

/-- Python `s.split(sep)` for a one-character separator: accumulator
recursion over the character list. `splitCharAux sep [] acc` closes the
final field, so the empty string splits to `[""]` as in Python. -/
def splitCharAux (sep : Char) : List Char → List Char → List (List Char)
  | [], acc => [acc.reverse]
  | c :: cs, acc =>
      if c = sep then acc.reverse :: splitCharAux sep cs []
      else splitCharAux sep cs (c :: acc)

/-- Python `s.split(sep)` for a one-character separator, on `String`. -/
def split_on_char (sep : Char) (s : String) : List String :=
  (splitCharAux sep s.toList []).map String.mk

/-- Python `s.split(chr(10))`, the line split used by the UI. -/
def split_newline (s : String) : List String :=
  split_on_char '\n' s

/-- Python `s.strip()`: drop whitespace from both ends. -/
def str_strip (s : String) : String :=
  String.mk (((s.toList.dropWhile Char.isWhitespace).reverse.dropWhile
    Char.isWhitespace).reverse)

/-- Python `s.upper()` (ASCII, which is all the source feeds it). -/
def str_upper (s : String) : String :=
  String.mk (s.toList.map Char.toUpper)

/-- Boolean test that the first list starts the second one. -/
def listStartsWith : List Char → List Char → Bool
  | [], _ => true
  | _ :: _, [] => false
  | a :: as, b :: bs => a = b && listStartsWith as bs

/-- `str_contains_aux needle hay`: does `needle` occur contiguously in
`hay`? Mirrors Python `needle in hay` on strings. -/
def str_contains_aux (needle : List Char) : List Char → Bool
  | [] => needle.isEmpty
  | c :: cs => listStartsWith needle (c :: cs) || str_contains_aux needle cs

/-- Python `sub in s` substring containment. -/
def str_contains (s sub : String) : Bool :=
  str_contains_aux sub.toList s.toList

/-! ## Offset-tracked reader (`log_tailer.py`, `LogFileHandler`)

The handler's mutable state is `last_position` (a remembered byte
offset) and `initial_read_done`.  A file on disk is `Option (List Char)`:
`none` when the path does not exist, otherwise its current content.
`_read_new_content` stats the file, resets the offset on deletion or
truncation, reads from the remembered offset, and invokes the callback
exactly when the read returned new bytes.  The model returns the updated
handler together with `some text` when the callback fires. -/

structure LogFileHandler where
  last_position : Nat
  initial_read_done : Bool
  deriving DecidableEq, Repr

/-- `LogFileHandler._read_new_content`, as a function from the file on
disk and the handler state to the new handler state and the callback
payload (if any). -/
def readNewContent (file : Option (List Char)) (h : LogFileHandler) :
    LogFileHandler × Option (List Char) :=
  match file with
  | none =>
      ({ h with last_position := 0 }, none)
  | some content =>
      let current_size := content.length
      let pos := if current_size < h.last_position then 0 else h.last_position
      let new_content := content.drop pos
      if new_content = [] then
        ({ h with last_position := pos }, none)
      else
        ({ h with last_position := content.length }, some new_content)

/-! ## Scheduler status query (`job_manager.py`, `JobManager.get_job_status`)

The query shells out to `squeue` and `sacct`; the model takes each
command's stdout and return code as inputs and reproduces the mapping
logic exactly. -/

/-- The `state_map` dictionary lookup with default `state` itself,
from the `squeue` branch of `get_job_status`. -/
def squeueStateMap (state : String) : String :=
  if state = "PENDING" then "QUEUED"
  else if state = "RUNNING" then "RUNNING"
  else if state = "COMPLETING" then "RUNNING"
  else if state = "CONFIGURING" then "QUEUED"
  else state

/-- `JobManager.get_job_status`: try `squeue` first, then `sacct`,
else UNKNOWN. -/
def get_job_status (squeue_stdout : String) (squeue_rc : Int)
    (sacct_stdout : String) (sacct_rc : Int) : String :=
  if squeue_rc = 0 ∧ str_strip squeue_stdout ≠ "" then
    squeueStateMap (str_upper (str_strip squeue_stdout))
  else if sacct_rc = 0 ∧ str_strip sacct_stdout ≠ "" then
    let state := str_upper (str_strip
      (((split_on_char '|' (str_strip sacct_stdout))).headD ""))
    if str_contains state "COMPLETED" then "COMPLETED"
    else if str_contains state "FAILED" ∨ str_contains state "CANCELLED" ∨
        str_contains state "TIMEOUT" then "FAILED"
    else if str_contains state "RUNNING" then "RUNNING"
    else "UNKNOWN"
  else "UNKNOWN"

/-! ## Status poller (`status_monitor.py`, `StatusMonitor._monitor_loop`)

One polling cycle iterates over `list(self.current_statuses.keys())`.
`current_statuses` is modelled as `Nat → Option (Option (String × Info))`:
outer `none` means the job is not a key, `some none` is the empty dict a
job starts with, `some (some (status, info))` a populated entry.  A
scheduler query that raises is `query j = none`; the `except` arm swallows
it and makes no callback.  `registered` is membership in
`status_callbacks`. -/

/-- Generic pointwise update of a `Nat`-keyed table, the model of dict
assignment and deletion. -/
def setAt {α : Type} (f : Nat → Option α) (j : Nat) (v : Option α) :
    Nat → Option α :=
  fun k => if k = j then v else f k

/-- One iteration of the per-job body of `StatusMonitor._monitor_loop`:
query status and info, refresh the cache entry when the status changed
or the entry was empty, invoke the callback unconditionally when one is
registered, then overwrite the entry's info with the fresh info.
Returns the updated cache and the callback invocations made. -/
def monitorLoopBody {Info : Type} (query : Nat → Option (String × Info))
    (registered : Nat → Bool)
    (cache : Nat → Option (Option (String × Info))) (job_id : Nat) :
    (Nat → Option (Option (String × Info))) × List (Nat × String × Info) :=
  match cache job_id with
  | none => (cache, [])
  | some entry =>
      match query job_id with
      | none => (cache, [])
      | some (status, info) =>
          let entry1 : Option (String × Info) :=
            match entry with
            | some (old_status, old_info) =>
                if status ≠ old_status then some (status, info)
                else some (old_status, old_info)
            | none => some (status, info)
          let calls :=
            if registered job_id then [(job_id, status, info)] else []
          let entry2 : Option (String × Info) :=
            match entry1 with
            | some (s1, _) => some (s1, info)
            | none => none
          (setAt cache job_id (some entry2), calls)

/-- One full polling cycle of `StatusMonitor._monitor_loop`: fold the
per-job body over the key list, accumulating callback invocations in
order. -/
def monitorCycle {Info : Type} (tracked : List Nat)
    (query : Nat → Option (String × Info)) (registered : Nat → Bool)
    (cache : Nat → Option (Option (String × Info))) :
    (Nat → Option (Option (String × Info))) × List (Nat × String × Info) :=
  tracked.foldl
    (fun acc j =>
      let r := monitorLoopBody query registered acc.1 j
      (r.1, acc.2 ++ r.2))
    (cache, [])

/-! ## Dashboard state (`ui_renderer.py`, `MonitorUI`)

Per-job dicts become `Nat → Option _` tables; the stream kind is the
two-valued key set `{stdout, stderr}` of `log_data` entries and of the
inner `scroll_mode` dicts.  Python's `if self.current_job_id:` guard is
truthiness: it fails on `None` and on job id `0`.  The terminal height
is threaded as the `console_height` argument wherever the source reads
`self.console.height`. -/

inductive StreamKind where
  | stdout
  | stderr
  deriving DecidableEq, Repr

structure MonitorUI (Info : Type) where
  job_data : Nat → Option (String × Info)
  log_data : Nat → Option (String × String)
  current_job_id : Option Nat
  stdout_scroll_pos : Nat → Option Nat
  stderr_scroll_pos : Nat → Option Nat
  stdout_lines : Nat → Option (List String)
  stderr_lines : Nat → Option (List String)
  focused_panel : StreamKind
  scroll_mode : Nat → Option (StreamKind → Option Bool)
  cached_max_lines_per_panel : Option Nat

/-- `MonitorUI.__init__`: empty tables, no current job, stdout focused,
no cached panel height. -/
def MonitorUI.init (Info : Type) : MonitorUI Info where
  job_data := fun _ => none
  log_data := fun _ => none
  current_job_id := none
  stdout_scroll_pos := fun _ => none
  stderr_scroll_pos := fun _ => none
  stdout_lines := fun _ => none
  stderr_lines := fun _ => none
  focused_panel := .stdout
  scroll_mode := fun _ => none
  cached_max_lines_per_panel := none

/-- The panel height computation `max(5, (height - 3 - 4) // 2 - 2)`
(Python floor division, hence `Int.fdiv`). -/
def computeMaxLines (console_height : Nat) : Nat :=
  (max 5 (((console_height : Int) - 3 - 4).fdiv 2 - 2)).toNat

/-- The `self._cached_max_lines_per_panel` read with recomputation when
the cache is unset, common to `update_log`, the scroll functions and the
scroll-to-bottom functions. -/
def currentMaxLines {Info : Type} (console_height : Nat)
    (ui : MonitorUI Info) : Nat :=
  match ui.cached_max_lines_per_panel with
  | some m => m
  | none => computeMaxLines console_height

/-- `MonitorUI.update_job_status`. -/
def update_job_status {Info : Type} (job_id : Nat) (status : String)
    (info : Info) (ui : MonitorUI Info) : MonitorUI Info :=
  let ui1 := { ui with job_data := setAt ui.job_data job_id (some (status, info)) }
  if ui1.current_job_id = none then { ui1 with current_job_id := some job_id }
  else ui1

/-- `MonitorUI.is_in_scroll_mode`. -/
def is_in_scroll_mode {Info : Type} (ui : MonitorUI Info) (job_id : Nat)
    (panel : StreamKind) : Bool :=
  match ui.scroll_mode job_id with
  | none => false
  | some inner => (inner panel).getD false

/-- `MonitorUI.set_scroll_mode`. -/
def set_scroll_mode {Info : Type} (ui : MonitorUI Info) (job_id : Nat)
    (panel : StreamKind) (enabled : Bool) : MonitorUI Info :=
  let inner := (ui.scroll_mode job_id).getD (fun _ => none)
  let inner1 := fun p => if p = panel then some enabled else inner p
  { ui with scroll_mode := setAt ui.scroll_mode job_id (some inner1) }

/-- `MonitorUI.scroll_to_bottom_stdout`: pin the current job's stdout
to `max(0, total_lines - max_lines_per_panel)` and leave scroll mode. -/
def scroll_to_bottom_stdout {Info : Type} (console_height : Nat)
    (ui : MonitorUI Info) : MonitorUI Info :=
  match ui.current_job_id with
  | none => ui
  | some j =>
      if j = 0 then ui
      else
        let total_lines := ((ui.stdout_lines j).getD []).length
        let m := currentMaxLines console_height ui
        let ui1 := { ui with
          cached_max_lines_per_panel := some m,
          stdout_scroll_pos := setAt ui.stdout_scroll_pos j (some (total_lines - m)) }
        set_scroll_mode ui1 j .stdout false

/-- `MonitorUI.scroll_to_bottom_stderr`. -/
def scroll_to_bottom_stderr {Info : Type} (console_height : Nat)
    (ui : MonitorUI Info) : MonitorUI Info :=
  match ui.current_job_id with
  | none => ui
  | some j =>
      if j = 0 then ui
      else
        let total_lines := ((ui.stderr_lines j).getD []).length
        let m := currentMaxLines console_height ui
        let ui1 := { ui with
          cached_max_lines_per_panel := some m,
          stderr_scroll_pos := setAt ui.stderr_scroll_pos j (some (total_lines - m)) }
        set_scroll_mode ui1 j .stderr false

/-- `MonitorUI.scroll_stdout_up`: move up by `lines` bounded at 0 and
enter scroll mode. -/
def scroll_stdout_up {Info : Type} (lines : Nat) (ui : MonitorUI Info) :
    MonitorUI Info :=
  match ui.current_job_id with
  | none => ui
  | some j =>
      if j = 0 then ui
      else
        match ui.stdout_scroll_pos j with
        | none => ui
        | some pos =>
            let ui1 := { ui with
              stdout_scroll_pos := setAt ui.stdout_scroll_pos j (some (pos - lines)) }
            set_scroll_mode ui1 j .stdout true

/-- `MonitorUI.scroll_stderr_up`. -/
def scroll_stderr_up {Info : Type} (lines : Nat) (ui : MonitorUI Info) :
    MonitorUI Info :=
  match ui.current_job_id with
  | none => ui
  | some j =>
      if j = 0 then ui
      else
        match ui.stderr_scroll_pos j with
        | none => ui
        | some pos =>
            let ui1 := { ui with
              stderr_scroll_pos := setAt ui.stderr_scroll_pos j (some (pos - lines)) }
            set_scroll_mode ui1 j .stderr true

/-- `MonitorUI.scroll_stdout_down`: move down by `lines` bounded at the
maximum offset, and enter (never leave) scroll mode. -/
def scroll_stdout_down {Info : Type} (console_height : Nat) (lines : Nat)
    (ui : MonitorUI Info) : MonitorUI Info :=
  match ui.current_job_id with
  | none => ui
  | some j =>
      if j = 0 then ui
      else
        match ui.stdout_scroll_pos j with
        | none => ui
        | some current_pos =>
            let total_lines := ((ui.stdout_lines j).getD []).length
            let m := currentMaxLines console_height ui
            let max_scroll := total_lines - m
            let new_pos := min max_scroll (current_pos + lines)
            let ui1 := { ui with
              cached_max_lines_per_panel := some m,
              stdout_scroll_pos := setAt ui.stdout_scroll_pos j (some new_pos) }
            set_scroll_mode ui1 j .stdout true

/-- `MonitorUI.scroll_stderr_down`. -/
def scroll_stderr_down {Info : Type} (console_height : Nat) (lines : Nat)
    (ui : MonitorUI Info) : MonitorUI Info :=
  match ui.current_job_id with
  | none => ui
  | some j =>
      if j = 0 then ui
      else
        match ui.stderr_scroll_pos j with
        | none => ui
        | some current_pos =>
            let total_lines := ((ui.stderr_lines j).getD []).length
            let m := currentMaxLines console_height ui
            let max_scroll := total_lines - m
            let new_pos := min max_scroll (current_pos + lines)
            let ui1 := { ui with
              cached_max_lines_per_panel := some m,
              stderr_scroll_pos := setAt ui.stderr_scroll_pos j (some new_pos) }
            set_scroll_mode ui1 j .stderr true

/-- `MonitorUI.scroll_down`: dispatch on the focused panel. -/
def scroll_down {Info : Type} (console_height : Nat) (lines : Nat)
    (ui : MonitorUI Info) : MonitorUI Info :=
  match ui.focused_panel with
  | .stdout => scroll_stdout_down console_height lines ui
  | .stderr => scroll_stderr_down console_height lines ui

/-- `MonitorUI.scroll_up`: dispatch on the focused panel. -/
def scroll_up {Info : Type} (lines : Nat) (ui : MonitorUI Info) :
    MonitorUI Info :=
  match ui.focused_panel with
  | .stdout => scroll_stdout_up lines ui
  | .stderr => scroll_stderr_up lines ui

/-- `MonitorUI.scroll_to_top`: set the focused panel's position for the
current job to 0.  Note it does not touch `scroll_mode`. -/
def scroll_to_top {Info : Type} (ui : MonitorUI Info) : MonitorUI Info :=
  match ui.current_job_id with
  | none => ui
  | some j =>
      if j = 0 then ui
      else
        match ui.focused_panel with
        | .stdout =>
            { ui with stdout_scroll_pos := setAt ui.stdout_scroll_pos j (some 0) }
        | .stderr =>
            { ui with stderr_scroll_pos := setAt ui.stderr_scroll_pos j (some 0) }

/-- `MonitorUI.exit_scroll_mode`: clear the flag, then scroll to the
bottom of the given panel. -/
def exit_scroll_mode {Info : Type} (console_height : Nat) (job_id : Nat)
    (panel : StreamKind) (ui : MonitorUI Info) : MonitorUI Info :=
  let ui1 := set_scroll_mode ui job_id panel false
  match panel with
  | .stdout => scroll_to_bottom_stdout console_height ui1
  | .stderr => scroll_to_bottom_stderr console_height ui1

/-- The `old_line_count` snapshot taken at the top of
`MonitorUI.update_log` (0 when the job has no cached lines). -/
def update_log_old_count {Info : Type} (ui : MonitorUI Info)
    (log_type : StreamKind) (job_id : Nat) : Nat :=
  match log_type with
  | .stdout =>
      match ui.stdout_lines job_id with
      | some ls => ls.length
      | none => 0
  | .stderr =>
      match ui.stderr_lines job_id with
      | some ls => ls.length
      | none => 0

/-- The `old_scroll_pos` snapshot taken at the top of
`MonitorUI.update_log` (read only when the job has cached lines). -/
def update_log_old_pos {Info : Type} (ui : MonitorUI Info)
    (log_type : StreamKind) (job_id : Nat) : Nat :=
  match log_type with
  | .stdout =>
      match ui.stdout_lines job_id with
      | some _ => (ui.stdout_scroll_pos job_id).getD 0
      | none => 0
  | .stderr =>
      match ui.stderr_lines job_id with
      | some _ => (ui.stderr_scroll_pos job_id).getD 0
      | none => 0

/-- `MonitorUI.update_log`: append `new_content` to the stream's
accumulated text, rebuild the cached line list from the full content,
then — only when not in scroll mode — auto-scroll to the bottom when
there were no lines before, the old content fit in one panel, or the old
position was within 2 lines of the old maximum offset. -/
def update_log {Info : Type} (console_height : Nat) (job_id : Nat)
    (log_type : StreamKind) (new_content : String) (ui : MonitorUI Info) :
    MonitorUI Info :=
  let ui0 :=
    if (ui.log_data job_id).isNone then
      { ui with log_data := setAt ui.log_data job_id (some ("", "")) }
    else ui
  let old_line_count := update_log_old_count ui0 log_type job_id
  let old_scroll_pos := update_log_old_pos ui0 log_type job_id
  let entry := (ui0.log_data job_id).getD ("", "")
  match log_type with
  | .stdout =>
      let full_content := entry.1 ++ new_content
      let ui1 := { ui0 with
        log_data := setAt ui0.log_data job_id (some (full_content, entry.2)) }
      let new_lines := split_newline full_content
      let ui2 := { ui1 with
        stdout_lines := setAt ui1.stdout_lines job_id (some new_lines) }
      if is_in_scroll_mode ui2 job_id .stdout then ui2
      else
        let m := currentMaxLines console_height ui2
        let ui3 := { ui2 with cached_max_lines_per_panel := some m }
        if old_line_count = 0 then scroll_to_bottom_stdout console_height ui3
        else if old_line_count ≤ m then scroll_to_bottom_stdout console_height ui3
        else if (old_scroll_pos : Int) ≥ (old_line_count : Int) - (m : Int) - 2 then
          scroll_to_bottom_stdout console_height ui3
        else ui3
  | .stderr =>
      let full_content := entry.2 ++ new_content
      let ui1 := { ui0 with
        log_data := setAt ui0.log_data job_id (some (entry.1, full_content)) }
      let new_lines := split_newline full_content
      let ui2 := { ui1 with
        stderr_lines := setAt ui1.stderr_lines job_id (some new_lines) }
      if is_in_scroll_mode ui2 job_id .stderr then ui2
      else
        let m := currentMaxLines console_height ui2
        let ui3 := { ui2 with cached_max_lines_per_panel := some m }
        if old_line_count = 0 then scroll_to_bottom_stderr console_height ui3
        else if old_line_count ≤ m then scroll_to_bottom_stderr console_height ui3
        else if (old_scroll_pos : Int) ≥ (old_line_count : Int) - (m : Int) - 2 then
          scroll_to_bottom_stderr console_height ui3
        else ui3

/-- `MonitorUI._get_visible_lines`: placeholder line for an empty
buffer; otherwise clamp the position and slice. -/
def get_visible_lines (lines : List String) (scroll_pos : Nat)
    (max_height : Nat) : List String × Nat × Nat :=
  let total_lines := lines.length
  if total_lines = 0 then
    (["[No output yet - waiting for file updates...]"], 0, 0)
  else
    let max_scroll := total_lines - max_height
    let pos := min scroll_pos max_scroll
    let e := min (pos + max_height) total_lines
    ((lines.drop pos).take (e - pos), pos, e)

/-- `MonitorUI.remove_job`: delete the job's entries from every
per-job table. -/
def remove_job {Info : Type} (job_id : Nat) (ui : MonitorUI Info) :
    MonitorUI Info :=
  { ui with
    job_data := setAt ui.job_data job_id none,
    log_data := setAt ui.log_data job_id none,
    stdout_scroll_pos := setAt ui.stdout_scroll_pos job_id none,
    stderr_scroll_pos := setAt ui.stderr_scroll_pos job_id none,
    stdout_lines := setAt ui.stdout_lines job_id none,
    stderr_lines := setAt ui.stderr_lines job_id none,
    scroll_mode := setAt ui.scroll_mode job_id none }

/-- The line list of a given stream of a given job. -/
def stream_lines {Info : Type} (ui : MonitorUI Info) (t : StreamKind)
    (j : Nat) : Option (List String) :=
  match t with
  | .stdout => ui.stdout_lines j
  | .stderr => ui.stderr_lines j

/-- The scroll position of a given stream of a given job. -/
def stream_scroll_pos {Info : Type} (ui : MonitorUI Info) (t : StreamKind)
    (j : Nat) : Option Nat :=
  match t with
  | .stdout => ui.stdout_scroll_pos j
  | .stderr => ui.stderr_scroll_pos j

/-- The accumulated text of a given stream of a given job (empty when
the job has no `log_data` entry, as `update_log` would create it). -/
def stream_content {Info : Type} (ui : MonitorUI Info) (t : StreamKind)
    (j : Nat) : String :=
  match t with
  | .stdout => ((ui.log_data j).getD ("", "")).1
  | .stderr => ((ui.log_data j).getD ("", "")).2

/-! ### Concrete dashboard states used as witnesses

Each is built by the model's own operations from the initial state, so
the scenarios are reachable runs of the dashboard. -/

/-- Two tracked jobs 1 and 2; job 1 became current on its first status
update. -/
def uiTwoJobs : MonitorUI Unit :=
  update_job_status 2 "QUEUED" ()
    (update_job_status 1 "RUNNING" () (MonitorUI.init Unit))

/-- Job 1 pinned at the bottom of nine stdout lines (panel height 5,
terminal height 21). -/
def uiPinnedNearBottom : MonitorUI Unit :=
  update_log 21 1 .stdout "1\n2\n3\n4\n5\n6\n7\n8\n9"
    (update_job_status 1 "RUNNING" () (MonitorUI.init Unit))

/-- The same state after one manual scroll-up: offset 3 of maximum 4,
in scroll mode. -/
def uiScrolledBackOne : MonitorUI Unit :=
  scroll_stdout_up 1 uiPinnedNearBottom

/-! ## Theorems -/

/-- C3 counterexample: a reader remembering offset 5 whose file does
not exist at the check comes out of `_read_new_content` with offset 0,
not 5 — the claim that the remembered offset is left unchanged fails
(no callback is indeed invoked). -/
theorem readNewContent_missing_file_cex :
    readNewContent none ⟨5, true⟩ = (⟨0, true⟩, none) ∧ (0 : Nat) ≠ 5 := by
  decide

/-- C3 (amended): when the file does not exist, the per-file tail check
resets the remembered offset to 0 and invokes no callback. -/
theorem readNewContent_missing_file (h : LogFileHandler) :
    readNewContent none h = ({ h with last_position := 0 }, none) :=
  rfl

/-- C4: `get_job_status` does not always land in the five-value
enumeration — when `squeue` reports a native state outside the explicit
`state_map` (here SUSPENDED), the raw scheduler state is returned
verbatim, contradicting the function's own documented return set. -/
theorem get_job_status_unmapped_passthrough :
    get_job_status "SUSPENDED" 0 "" 1 = "SUSPENDED" ∧
    "SUSPENDED" ∉
      (["QUEUED", "RUNNING", "COMPLETED", "FAILED", "UNKNOWN"] : List String) := by
  decide

/-- C5: when the file's size is strictly smaller than the remembered
offset, the check resets the offset to 0, reads from the start, and
delivers the file's current full content (for a non-empty file). -/
theorem readNewContent_truncation_full_read (content : List Char)
    (h : LogFileHandler) (hne : content ≠ [])
    (hlt : content.length < h.last_position) :
    readNewContent (some content) h =
      ({ h with last_position := content.length }, some content) := by
  simp [readNewContent, hlt, hne]

/-- C5 witness: a 2-byte file against a remembered offset of 5. -/
theorem readNewContent_truncation_full_read_witness :
    ("ab".toList ≠ [] ∧ "ab".toList.length < 5) ∧
      readNewContent (some "ab".toList) ⟨5, true⟩ =
        ({ last_position := "ab".toList.length, initial_read_done := true },
          some "ab".toList) :=
  ⟨⟨by decide, by decide⟩,
    readNewContent_truncation_full_read "ab".toList ⟨5, true⟩
      (by decide) (by decide)⟩

/-- C6: the per-file tail check is idempotent — a second check on the
same file state delivers no callback and leaves the offset where the
first check put it. -/
theorem readNewContent_idempotent (file : Option (List Char))
    (h : LogFileHandler) :
    readNewContent file (readNewContent file h).1 =
      ((readNewContent file h).1, none) := by
  match file with
  | none => rfl
  | some content =>
      simp only [readNewContent]
      by_cases h1 : content.length < h.last_position
      · simp only [if_pos h1, List.drop_zero]
        by_cases h2 : content = []
        · subst h2
          simp
        · simp [h2, List.drop_length]
      · simp only [if_neg h1]
        by_cases h2 : content.drop h.last_position = []
        · simp [h1, h2]
        · simp [h1, h2, List.drop_length]

/-- The per-job loop body keeps every existing cache key present. -/
theorem monitorLoopBody_preserves_key {Info : Type}
    (query : Nat → Option (String × Info)) (registered : Nat → Bool)
    (cache : Nat → Option (Option (String × Info))) (j k : Nat)
    (hk : (cache k).isSome) :
    (((monitorLoopBody query registered cache j).1) k).isSome := by
  unfold monitorLoopBody
  cases hc : cache j with
  | none => exact hk
  | some entry =>
      cases hq : query j with
      | none => exact hk
      | some si =>
          simp only [setAt]
          by_cases hkj : k = j
          · simp [hkj]
          · simp [hkj, hk]

/-- Callback invocations accumulated so far survive the rest of the
polling cycle's fold. -/
theorem monitorFold_calls_mono {Info : Type} (l : List Nat)
    (query : Nat → Option (String × Info)) (registered : Nat → Bool)
    (acc : (Nat → Option (Option (String × Info))) × List (Nat × String × Info))
    (x : Nat × String × Info) (hx : x ∈ acc.2) :
    x ∈ (l.foldl
      (fun acc j =>
        let r := monitorLoopBody query registered acc.1 j
        (r.1, acc.2 ++ r.2)) acc).2 := by
  induction l generalizing acc with
  | nil => exact hx
  | cons a l ih =>
      exact ih _ (List.mem_append_left _ hx)

/-- Fold-generalised form of the unconditional-callback property. -/
theorem monitorFold_calls_job {Info : Type} (l : List Nat)
    (query : Nat → Option (String × Info)) (registered : Nat → Bool)
    (acc : (Nat → Option (Option (String × Info))) × List (Nat × String × Info))
    (j : Nat) (status : String) (info : Info)
    (hj : j ∈ l) (hc : (acc.1 j).isSome)
    (hq : query j = some (status, info)) (hr : registered j = true) :
    (j, status, info) ∈ (l.foldl
      (fun acc j =>
        let r := monitorLoopBody query registered acc.1 j
        (r.1, acc.2 ++ r.2)) acc).2 := by
  induction l generalizing acc with
  | nil => cases hj
  | cons a l ih =>
      rcases List.mem_cons.mp hj with rfl | hj2
      · rw [List.foldl_cons]
        apply monitorFold_calls_mono
        obtain ⟨entry, hentry⟩ := Option.isSome_iff_exists.mp hc
        simp [monitorLoopBody, hentry, hq, hr]
      · exact ih _ hj2 (monitorLoopBody_preserves_key _ _ _ _ _ hc)

/-- C8: in a polling cycle, every tracked job (a key of
`current_statuses`) whose status and info queries succeed and that has a
registered callback gets that callback invoked with the freshly fetched
status and info — unconditionally, whatever the cached last-known entry
holds. -/
theorem monitorCycle_callback_unconditional {Info : Type}
    (tracked : List Nat) (query : Nat → Option (String × Info))
    (registered : Nat → Bool)
    (cache : Nat → Option (Option (String × Info)))
    (j : Nat) (status : String) (info : Info)
    (hj : j ∈ tracked) (hc : (cache j).isSome)
    (hq : query j = some (status, info)) (hr : registered j = true) :
    (j, status, info) ∈ (monitorCycle tracked query registered cache).2 :=
  monitorFold_calls_job tracked query registered (cache, []) j status info
    hj hc hq hr

/-- C8 witness: one tracked job whose freshly fetched status equals the
cached last-known status; the callback still fires, carrying the fresh
info. -/
theorem monitorCycle_callback_unconditional_witness :
    (7 ∈ [7] ∧
      ((fun k => if k = 7 then
          some (some ("RUNNING", "elapsed-old")) else none) 7).isSome ∧
      (fun k => if k = 7 then
          some ("RUNNING", "elapsed-new") else none) 7 =
        some ("RUNNING", "elapsed-new") ∧
      (fun _ : Nat => true) 7 = true) ∧
    (7, "RUNNING", "elapsed-new") ∈
      (monitorCycle [7]
        (fun k => if k = 7 then some ("RUNNING", "elapsed-new") else none)
        (fun _ => true)
        (fun k => if k = 7 then
          some (some ("RUNNING", "elapsed-old")) else none)).2 :=
  ⟨⟨by decide, by decide, by decide, by decide⟩,
    monitorCycle_callback_unconditional [7] _ _ _ 7 "RUNNING" "elapsed-new"
      (by decide) (by decide) (by decide) (by decide)⟩

/-! ### Dashboard helper lemmas -/

/-- Reading a table at the key just written returns the written value. -/
theorem setAt_same {α : Type} (f : Nat → Option α) (j : Nat)
    (v : Option α) : setAt f j v j = v := by
  simp [setAt]

/-- `set_scroll_mode` followed by `is_in_scroll_mode` on the same
job and panel reads back the flag just written. -/
theorem is_in_scroll_mode_set_self {Info : Type} (ui : MonitorUI Info)
    (j : Nat) (p : StreamKind) (b : Bool) :
    is_in_scroll_mode (set_scroll_mode ui j p b) j p = b := by
  simp [is_in_scroll_mode, set_scroll_mode, setAt]

/-- `scroll_to_bottom_stdout` does not modify the log text tables. -/
theorem scroll_to_bottom_stdout_log_data {Info : Type} (ch : Nat)
    (ui : MonitorUI Info) :
    (scroll_to_bottom_stdout ch ui).log_data = ui.log_data := by
  unfold scroll_to_bottom_stdout
  cases ui.current_job_id with
  | none => rfl
  | some j => by_cases hj : j = 0 <;> simp [hj, set_scroll_mode]

/-- `scroll_to_bottom_stdout` does not modify the cached line lists. -/
theorem scroll_to_bottom_stdout_stdout_lines {Info : Type} (ch : Nat)
    (ui : MonitorUI Info) :
    (scroll_to_bottom_stdout ch ui).stdout_lines = ui.stdout_lines := by
  unfold scroll_to_bottom_stdout
  cases ui.current_job_id with
  | none => rfl
  | some j => by_cases hj : j = 0 <;> simp [hj, set_scroll_mode]

/-- `scroll_to_bottom_stderr` does not modify the log text tables. -/
theorem scroll_to_bottom_stderr_log_data {Info : Type} (ch : Nat)
    (ui : MonitorUI Info) :
    (scroll_to_bottom_stderr ch ui).log_data = ui.log_data := by
  unfold scroll_to_bottom_stderr
  cases ui.current_job_id with
  | none => rfl
  | some j => by_cases hj : j = 0 <;> simp [hj, set_scroll_mode]

/-- `scroll_to_bottom_stderr` does not modify the cached line lists. -/
theorem scroll_to_bottom_stderr_stderr_lines {Info : Type} (ch : Nat)
    (ui : MonitorUI Info) :
    (scroll_to_bottom_stderr ch ui).stderr_lines = ui.stderr_lines := by
  unfold scroll_to_bottom_stderr
  cases ui.current_job_id with
  | none => rfl
  | some j => by_cases hj : j = 0 <;> simp [hj, set_scroll_mode]

/-- `scroll_to_bottom_stdout` for the current (non-zero) job pins the
stdout offset to `max(0, total_lines - max_lines_per_panel)`. -/
theorem scroll_to_bottom_stdout_pos {Info : Type} (ch : Nat)
    (ui : MonitorUI Info) (j : Nat)
    (hcur : ui.current_job_id = some j) (hj : j ≠ 0) :
    (scroll_to_bottom_stdout ch ui).stdout_scroll_pos j =
      some (((ui.stdout_lines j).getD []).length - currentMaxLines ch ui) := by
  simp [scroll_to_bottom_stdout, hcur, hj, set_scroll_mode, setAt]

/-- `scroll_to_bottom_stderr` for the current (non-zero) job pins the
stderr offset to `max(0, total_lines - max_lines_per_panel)`. -/
theorem scroll_to_bottom_stderr_pos {Info : Type} (ch : Nat)
    (ui : MonitorUI Info) (j : Nat)
    (hcur : ui.current_job_id = some j) (hj : j ≠ 0) :
    (scroll_to_bottom_stderr ch ui).stderr_scroll_pos j =
      some (((ui.stderr_lines j).getD []).length - currentMaxLines ch ui) := by
  simp [scroll_to_bottom_stderr, hcur, hj, set_scroll_mode, setAt]

/-- `update_log` appends the new text to the stream's accumulated
content. -/
theorem update_log_content {Info : Type} (ch j : Nat) (t : StreamKind)
    (c : String) (ui : MonitorUI Info) :
    stream_content (update_log ch j t c ui) t j =
      stream_content ui t j ++ c := by
  cases t <;> cases hld : ui.log_data j <;>
    simp only [update_log, hld, Option.isNone_none, Option.isNone_some,
      if_true, if_false, ite_true, ite_false, stream_content, setAt,
      Option.getD_some, Option.getD_none] <;>
    split_ifs <;>
    simp_all [scroll_to_bottom_stdout_log_data,
      scroll_to_bottom_stderr_log_data, stream_content, setAt]

/-- `update_log` rebuilds the stream's cached line list as the newline
split of the full accumulated content. -/
theorem update_log_lines {Info : Type} (ch j : Nat) (t : StreamKind)
    (c : String) (ui : MonitorUI Info) :
    stream_lines (update_log ch j t c ui) t j =
      some (split_newline (stream_content ui t j ++ c)) := by
  cases t <;> cases hld : ui.log_data j <;>
    simp only [update_log, hld, Option.isNone_none, Option.isNone_some,
      if_true, if_false, ite_true, ite_false, stream_lines, stream_content,
      setAt, Option.getD_some, Option.getD_none] <;>
    split_ifs <;>
    simp_all [scroll_to_bottom_stdout_stdout_lines,
      scroll_to_bottom_stderr_stderr_lines, stream_lines, stream_content,
      setAt]

/-- C1 counterexample: job 1 is PINNED (scroll mode off) but parked at
the top via `scroll_to_top` (which does not enter scroll mode); the next
append leaves the offset at 0, which differs from
`max(0, totalLines - viewportHeight) = 4` — so the offset after an
append in PINNED state is not always recomputed to the maximum. -/
theorem update_log_pinned_cex :
    let s2 := scroll_to_top uiPinnedNearBottom
    let s3 := update_log 21 1 .stdout "x" s2
    is_in_scroll_mode s2 1 .stdout = false ∧
    s3.stdout_scroll_pos 1 = some 0 ∧
    ((s3.stdout_lines 1).getD []).length - currentMaxLines 21 s3 = 4 ∧
    s3.stdout_scroll_pos 1 ≠
      some (((s3.stdout_lines 1).getD []).length - currentMaxLines 21 s3) := by
  decide

/-- C1 (amended): after an append via `update_log` for the current
(non-zero) job with the (job, stream) pair in PINNED state, the offset
is recomputed to `max(0, totalLines - viewportHeight)` provided the
pre-append position was at or near the bottom: no prior lines, prior
line count within one panel, or prior offset within 2 of the prior
maximum offset.  (Otherwise the code leaves the offset unchanged.) -/
theorem update_log_pinned_repins {Info : Type} (ui : MonitorUI Info)
    (ch j : Nat) (t : StreamKind) (c : String)
    (hcur : ui.current_job_id = some j) (hj : j ≠ 0)
    (hpin : is_in_scroll_mode ui j t = false)
    (hnear : update_log_old_count ui t j = 0 ∨
      update_log_old_count ui t j ≤ currentMaxLines ch ui ∨
      ((update_log_old_pos ui t j : Int) ≥
        (update_log_old_count ui t j : Int) -
          (currentMaxLines ch ui : Int) - 2)) :
    stream_scroll_pos (update_log ch j t c ui) t j =
      some ((split_newline (stream_content ui t j ++ c)).length -
        currentMaxLines ch ui) := by
  cases t with
  | stdout =>
      cases hld : ui.log_data j with
      | none =>
          simp only [stream_scroll_pos, update_log, hld, Option.isNone_none,
            eq_self_iff_true, if_true]
          split_ifs with hs h1 h2 h3
          · have hs2 : is_in_scroll_mode ui j .stdout = true := hs
            rw [hpin] at hs2
            exact absurd hs2 (by simp)
          · refine Eq.trans (scroll_to_bottom_stdout_pos ch _ j ?_ hj) ?_
            · exact hcur
            · simp [setAt_same, stream_content, hld, currentMaxLines, setAt]
          · refine Eq.trans (scroll_to_bottom_stdout_pos ch _ j ?_ hj) ?_
            · exact hcur
            · simp [setAt_same, stream_content, hld, currentMaxLines, setAt]
          · refine Eq.trans (scroll_to_bottom_stdout_pos ch _ j ?_ hj) ?_
            · exact hcur
            · simp [setAt_same, stream_content, hld, currentMaxLines, setAt]
          · exfalso
            have h1a : ¬ update_log_old_count ui .stdout j = 0 := h1
            have h2a : ¬ update_log_old_count ui .stdout j ≤
              currentMaxLines ch ui := h2
            have h3a : ¬ ((update_log_old_pos ui .stdout j : Int) ≥
              (update_log_old_count ui .stdout j : Int) -
                (currentMaxLines ch ui : Int) - 2) := h3
            rcases hnear with h | h | h
            · exact h1a h
            · exact h2a h
            · exact h3a h
      | some e =>
          simp only [stream_scroll_pos, update_log, hld, Option.isNone_some,
            Bool.false_eq_true, if_false]
          split_ifs with hs h1 h2 h3
          · have hs2 : is_in_scroll_mode ui j .stdout = true := hs
            rw [hpin] at hs2
            exact absurd hs2 (by simp)
          · refine Eq.trans (scroll_to_bottom_stdout_pos ch _ j ?_ hj) ?_
            · exact hcur
            · simp [setAt_same, stream_content, hld, currentMaxLines, setAt]
          · refine Eq.trans (scroll_to_bottom_stdout_pos ch _ j ?_ hj) ?_
            · exact hcur
            · simp [setAt_same, stream_content, hld, currentMaxLines, setAt]
          · refine Eq.trans (scroll_to_bottom_stdout_pos ch _ j ?_ hj) ?_
            · exact hcur
            · simp [setAt_same, stream_content, hld, currentMaxLines, setAt]
          · exfalso
            have h1a : ¬ update_log_old_count ui .stdout j = 0 := h1
            have h2a : ¬ update_log_old_count ui .stdout j ≤
              currentMaxLines ch ui := h2
            have h3a : ¬ ((update_log_old_pos ui .stdout j : Int) ≥
              (update_log_old_count ui .stdout j : Int) -
                (currentMaxLines ch ui : Int) - 2) := h3
            rcases hnear with h | h | h
            · exact h1a h
            · exact h2a h
            · exact h3a h
  | stderr =>
      cases hld : ui.log_data j with
      | none =>
          simp only [stream_scroll_pos, update_log, hld, Option.isNone_none,
            eq_self_iff_true, if_true]
          split_ifs with hs h1 h2 h3
          · have hs2 : is_in_scroll_mode ui j .stderr = true := hs
            rw [hpin] at hs2
            exact absurd hs2 (by simp)
          · refine Eq.trans (scroll_to_bottom_stderr_pos ch _ j ?_ hj) ?_
            · exact hcur
            · simp [setAt_same, stream_content, hld, currentMaxLines, setAt]
          · refine Eq.trans (scroll_to_bottom_stderr_pos ch _ j ?_ hj) ?_
            · exact hcur
            · simp [setAt_same, stream_content, hld, currentMaxLines, setAt]
          · refine Eq.trans (scroll_to_bottom_stderr_pos ch _ j ?_ hj) ?_
            · exact hcur
            · simp [setAt_same, stream_content, hld, currentMaxLines, setAt]
          · exfalso
            have h1a : ¬ update_log_old_count ui .stderr j = 0 := h1
            have h2a : ¬ update_log_old_count ui .stderr j ≤
              currentMaxLines ch ui := h2
            have h3a : ¬ ((update_log_old_pos ui .stderr j : Int) ≥
              (update_log_old_count ui .stderr j : Int) -
                (currentMaxLines ch ui : Int) - 2) := h3
            rcases hnear with h | h | h
            · exact h1a h
            · exact h2a h
            · exact h3a h
      | some e =>
          simp only [stream_scroll_pos, update_log, hld, Option.isNone_some,
            Bool.false_eq_true, if_false]
          split_ifs with hs h1 h2 h3
          · have hs2 : is_in_scroll_mode ui j .stderr = true := hs
            rw [hpin] at hs2
            exact absurd hs2 (by simp)
          · refine Eq.trans (scroll_to_bottom_stderr_pos ch _ j ?_ hj) ?_
            · exact hcur
            · simp [setAt_same, stream_content, hld, currentMaxLines, setAt]
          · refine Eq.trans (scroll_to_bottom_stderr_pos ch _ j ?_ hj) ?_
            · exact hcur
            · simp [setAt_same, stream_content, hld, currentMaxLines, setAt]
          · refine Eq.trans (scroll_to_bottom_stderr_pos ch _ j ?_ hj) ?_
            · exact hcur
            · simp [setAt_same, stream_content, hld, currentMaxLines, setAt]
          · exfalso
            have h1a : ¬ update_log_old_count ui .stderr j = 0 := h1
            have h2a : ¬ update_log_old_count ui .stderr j ≤
              currentMaxLines ch ui := h2
            have h3a : ¬ ((update_log_old_pos ui .stderr j : Int) ≥
              (update_log_old_count ui .stderr j : Int) -
                (currentMaxLines ch ui : Int) - 2) := h3
            rcases hnear with h | h | h
            · exact h1a h
            · exact h2a h
            · exact h3a h

/-- C1 witness: a pinned stream whose offset sits at the old maximum;
appending one more line repins it to the new maximum offset 6. -/
theorem update_log_pinned_repins_witness :
    (uiPinnedNearBottom.current_job_id = some 1 ∧ (1 : Nat) ≠ 0 ∧
      is_in_scroll_mode uiPinnedNearBottom 1 .stdout = false ∧
      (update_log_old_count uiPinnedNearBottom .stdout 1 = 0 ∨
        update_log_old_count uiPinnedNearBottom .stdout 1 ≤
          currentMaxLines 21 uiPinnedNearBottom ∨
        ((update_log_old_pos uiPinnedNearBottom .stdout 1 : Int) ≥
          (update_log_old_count uiPinnedNearBottom .stdout 1 : Int) -
            (currentMaxLines 21 uiPinnedNearBottom : Int) - 2))) ∧
    stream_scroll_pos (update_log 21 1 .stdout "y\n" uiPinnedNearBottom)
        .stdout 1 =
      some ((split_newline
          (stream_content uiPinnedNearBottom .stdout 1 ++ "y\n")).length -
        currentMaxLines 21 uiPinnedNearBottom) :=
  ⟨⟨by decide, by decide, by decide, by decide⟩,
    update_log_pinned_repins uiPinnedNearBottom 21 1 .stdout "y\n"
      (by decide) (by decide) (by decide) (by decide)⟩

/-- C2 counterexample: from SCROLLED state at offset 3 of maximum 4, a
one-line scroll-down lands exactly on the maximum offset, yet
`is_in_scroll_mode` remains true — the claimed SCROLLED → PINNED
transition on reaching the maximum does not happen. -/
theorem scroll_down_reach_max_cex :
    let s3 := scroll_stdout_down 21 1 uiScrolledBackOne
    is_in_scroll_mode uiScrolledBackOne 1 .stdout = true ∧
    s3.stdout_scroll_pos 1 =
      some (((s3.stdout_lines 1).getD []).length - currentMaxLines 21 s3) ∧
    is_in_scroll_mode s3 1 .stdout = true := by
  decide

/-- C2 (amended): a scroll-down action on the focused stream of the
current (non-zero) job always leaves that (job, stream) in scroll mode
(SCROLLED), even when the resulting offset reaches the maximum; the
state returns to PINNED only via the explicit scroll-to-bottom action or
the exit-scroll-mode key. -/
theorem scroll_down_keeps_scroll_mode {Info : Type} (ui : MonitorUI Info)
    (console_height n j : Nat)
    (hcur : ui.current_job_id = some j) (hj : j ≠ 0)
    (hpos : (stream_scroll_pos ui ui.focused_panel j).isSome) :
    is_in_scroll_mode (scroll_down console_height n ui) j
      ui.focused_panel = true := by
  cases hf : ui.focused_panel with
  | stdout =>
      have hpos2 : (ui.stdout_scroll_pos j).isSome := by
        rw [hf] at hpos
        simpa [stream_scroll_pos] using hpos
      obtain ⟨pos0, hp⟩ := Option.isSome_iff_exists.mp hpos2
      simp [scroll_down, hf, scroll_stdout_down, hcur, hj, hp,
        is_in_scroll_mode_set_self]
  | stderr =>
      have hpos2 : (ui.stderr_scroll_pos j).isSome := by
        rw [hf] at hpos
        simpa [stream_scroll_pos] using hpos
      obtain ⟨pos0, hp⟩ := Option.isSome_iff_exists.mp hpos2
      simp [scroll_down, hf, scroll_stderr_down, hcur, hj, hp,
        is_in_scroll_mode_set_self]

/-- C2 witness: the scroll-down that reaches the maximum offset keeps
the stream in scroll mode. -/
theorem scroll_down_keeps_scroll_mode_witness :
    (uiScrolledBackOne.current_job_id = some 1 ∧ (1 : Nat) ≠ 0 ∧
      (stream_scroll_pos uiScrolledBackOne
        uiScrolledBackOne.focused_panel 1).isSome) ∧
    is_in_scroll_mode (scroll_down 21 1 uiScrolledBackOne) 1
      uiScrolledBackOne.focused_panel = true :=
  ⟨⟨by decide, by decide, by decide⟩,
    scroll_down_keeps_scroll_mode uiScrolledBackOne 21 1 1
      (by decide) (by decide) (by decide)⟩

/-- C7: appending to a stream buffer is a homomorphism into the derived
line sequence — two successive appends produce the same line list as
one append of the concatenation — and the concrete round-trip of
appending "a\nb\nc\n" then "d\n" to an empty buffer yields
["a", "b", "c", "d", ""]. -/
theorem update_log_append_homomorphism :
    (∀ (Info : Type) (ui : MonitorUI Info) (console_height job_id : Nat)
        (t : StreamKind) (c1 c2 : String),
      stream_lines (update_log console_height job_id t c2
          (update_log console_height job_id t c1 ui)) t job_id =
        stream_lines (update_log console_height job_id t (c1 ++ c2) ui)
          t job_id) ∧
    (∀ console_height : Nat,
      stream_lines (update_log console_height 1 .stdout "d\n"
          (update_log console_height 1 .stdout "a\nb\nc\n"
            (MonitorUI.init Unit))) .stdout 1 =
        some ["a", "b", "c", "d", ""]) := by
  constructor
  · intro Info ui ch j t c1 c2
    rw [update_log_lines, update_log_content, update_log_lines,
      String.append_assoc]
  · intro ch
    rw [update_log_lines, update_log_content]
    decide

/-- C9: for a non-empty line list the visible-window computation clamps
the offset into `[0, max(0, len - height)]` and returns the slice of
`height` lines starting there (with the clamped start and the exclusive
end index); the empty list yields the single placeholder line, never an
empty view. -/
theorem get_visible_lines_clamps_and_slices (lines : List String)
    (pos hgt : Nat) :
    (lines ≠ [] →
      get_visible_lines lines pos hgt =
        ((lines.drop (min pos (lines.length - hgt))).take hgt,
          min pos (lines.length - hgt),
          min (min pos (lines.length - hgt) + hgt) lines.length)) ∧
    get_visible_lines ([] : List String) pos hgt =
      (["[No output yet - waiting for file updates...]"], 0, 0) := by
  constructor
  · intro hne
    have htot : lines.length ≠ 0 := fun h0 => hne (List.length_eq_zero.mp h0)
    simp only [get_visible_lines, if_neg htot, Prod.mk.injEq]
    refine ⟨?_, trivial⟩
    rw [List.take_eq_take]
    simp only [List.length_drop]
    omega
  · rfl

/-- C9 witness: three lines, out-of-range offset 5, height 2. -/
theorem get_visible_lines_clamps_and_slices_witness :
    (["a", "b", "c"] : List String) ≠ [] ∧
    get_visible_lines ["a", "b", "c"] 5 2 =
      ((["a", "b", "c"].drop (min 5 (["a", "b", "c"].length - 2))).take 2,
        min 5 (["a", "b", "c"].length - 2),
        min (min 5 (["a", "b", "c"].length - 2) + 2) ["a", "b", "c"].length) :=
  ⟨by decide,
    (get_visible_lines_clamps_and_slices ["a", "b", "c"] 5 2).1 (by decide)⟩

/-- C10: `remove_job j` clears every per-job table entry of `j`
(status/info, log text, both scroll positions, both cached line lists,
scroll modes) and leaves every table entry of any other job `k` and the
focused-panel setting unchanged. -/
theorem remove_job_frame {Info : Type} (ui : MonitorUI Info) (j k : Nat)
    (hk : k ≠ j) :
    (remove_job j ui).job_data j = none ∧
    (remove_job j ui).log_data j = none ∧
    (remove_job j ui).stdout_scroll_pos j = none ∧
    (remove_job j ui).stderr_scroll_pos j = none ∧
    (remove_job j ui).stdout_lines j = none ∧
    (remove_job j ui).stderr_lines j = none ∧
    (remove_job j ui).scroll_mode j = none ∧
    (remove_job j ui).job_data k = ui.job_data k ∧
    (remove_job j ui).log_data k = ui.log_data k ∧
    (remove_job j ui).stdout_scroll_pos k = ui.stdout_scroll_pos k ∧
    (remove_job j ui).stderr_scroll_pos k = ui.stderr_scroll_pos k ∧
    (remove_job j ui).stdout_lines k = ui.stdout_lines k ∧
    (remove_job j ui).stderr_lines k = ui.stderr_lines k ∧
    (remove_job j ui).scroll_mode k = ui.scroll_mode k ∧
    (remove_job j ui).focused_panel = ui.focused_panel := by
  simp [remove_job, setAt, hk]

/-- C10 witness: removing job 1 from a two-job dashboard clears job 1's
entries and leaves job 2's entries and the focus untouched. -/
theorem remove_job_frame_witness :
    (2 : Nat) ≠ 1 ∧
    ((remove_job 1 uiTwoJobs).job_data 1 = none ∧
    (remove_job 1 uiTwoJobs).log_data 1 = none ∧
    (remove_job 1 uiTwoJobs).stdout_scroll_pos 1 = none ∧
    (remove_job 1 uiTwoJobs).stderr_scroll_pos 1 = none ∧
    (remove_job 1 uiTwoJobs).stdout_lines 1 = none ∧
    (remove_job 1 uiTwoJobs).stderr_lines 1 = none ∧
    (remove_job 1 uiTwoJobs).scroll_mode 1 = none ∧
    (remove_job 1 uiTwoJobs).job_data 2 = uiTwoJobs.job_data 2 ∧
    (remove_job 1 uiTwoJobs).log_data 2 = uiTwoJobs.log_data 2 ∧
    (remove_job 1 uiTwoJobs).stdout_scroll_pos 2 =
      uiTwoJobs.stdout_scroll_pos 2 ∧
    (remove_job 1 uiTwoJobs).stderr_scroll_pos 2 =
      uiTwoJobs.stderr_scroll_pos 2 ∧
    (remove_job 1 uiTwoJobs).stdout_lines 2 = uiTwoJobs.stdout_lines 2 ∧
    (remove_job 1 uiTwoJobs).stderr_lines 2 = uiTwoJobs.stderr_lines 2 ∧
    (remove_job 1 uiTwoJobs).scroll_mode 2 = uiTwoJobs.scroll_mode 2 ∧
    (remove_job 1 uiTwoJobs).focused_panel = uiTwoJobs.focused_panel) :=
  ⟨by decide, remove_job_frame uiTwoJobs 1 2 (by decide)⟩

end SlurmMonitor

